import Mathlib

/-!
Verification of the a11y-analyzer analysis engine and frontend against its
specification.  The frontend components (`App.jsx`, `ReportDisplay.jsx`,
`FileUpload`) are embedded from the JavaScript source; the backend analysis
engine (parsers, heuristic classifier, AI orchestrator, correction merge,
aggregator) is not present in the repository snapshot, so those parts are
modelled from the specification text, as marked on each definition.
-/

namespace A11y

/-- Severity levels assigned to findings (Critical, High, Medium, Low). -/
inductive Severity where
  | Critical
  | High
  | Medium
  | Low
deriving DecidableEq

/-- Conformance levels of a criterion row. -/
inductive ConformanceLevel where
  | Supports
  | PartiallySupports
  | DoesNotSupport
  | NotApplicable
deriving DecidableEq

/-- Confidence values attached to a finding (high, medium, low, fallback). -/
inductive Confidence where
  | high
  | medium
  | low
  | fallback
deriving DecidableEq

/-- Confidence values a backend verdict can carry (high, medium, low);
the fallback value is reserved for the heuristic path. -/
inductive AiConfidence where
  | high
  | medium
  | low
deriving DecidableEq

/-- Embeds a backend confidence into the finding confidence domain. -/
def AiConfidence.toConfidence : AiConfidence → Confidence
  | .high => Confidence.high
  | .medium => Confidence.medium
  | .low => Confidence.low

/-- Checks that `hay` starts with `pat`, character by character. -/
def startsWithChars : List Char → List Char → Bool
  | _, [] => true
  | [], _ :: _ => false
  | h :: t, p :: ps => (h == p) && startsWithChars t ps

/-- Checks that `pat` occurs as a contiguous substring of `hay`. -/
def hasSub : List Char → List Char → Bool
  | [], pat => pat.isEmpty
  | h :: t, pat => startsWithChars (h :: t) pat || hasSub t pat

/-- Case-insensitive substring test between a remark text and a keyword. -/
def containsKw (remarks kw : String) : Bool :=
  hasSub (remarks.data.map Char.toLower) (kw.data.map Char.toLower)

/-- Modelled from the spec: Critical-tier keyword patterns of the heuristic
severity classifier (the backend classifier module is not in the snapshot);
keywords from the README severity table. -/
def criticalKeywords : List String :=
  ["keyboard trap", "not accessible by keyboard", "blocks screen reader",
   "content disappears"]

/-- Modelled from the spec: High-tier keyword patterns of the heuristic
severity classifier. -/
def highKeywords : List String :=
  ["poor contrast", "difficult to use", "confusing navigation",
   "illogical order"]

/-- Modelled from the spec: Medium-tier keyword patterns of the heuristic
severity classifier. -/
def mediumKeywords : List String :=
  ["inconsistent", "unclear link purpose", "status messages not announced"]

/-- First keyword of the tier matching the remark text, if any. -/
def findKw (remarks : String) (kws : List String) : Option String :=
  kws.find? (fun kw => containsKw remarks kw)

/-- Modelled from the spec: the heuristic severity classifier
`classify(remarks) -> (severity, matched_keyword|null)` (backend module not
in the snapshot).  Ordered rule list, most severe first: Critical, High,
Medium; first rule with any match wins; default Low. -/
def classify (remarks : String) : Severity × Option String :=
  match findKw remarks criticalKeywords with
  | some kw => (Severity.Critical, some kw)
  | none =>
    match findKw remarks highKeywords with
    | some kw => (Severity.High, some kw)
    | none =>
      match findKw remarks mediumKeywords with
      | some kw => (Severity.Medium, some kw)
      | none => (Severity.Low, none)

/-- C1: the heuristic classifier applies its rules in strict priority order:
any Critical-tier keyword match yields Critical regardless of co-occurring
lower-tier keywords; if no rule matches the result is Low; and the empty
remark text classifies as Low. -/
theorem classify_strict_priority (remarks : String) :
    (criticalKeywords.any (fun kw => containsKw remarks kw) = true →
      (classify remarks).1 = Severity.Critical)
    ∧ ((criticalKeywords ++ highKeywords ++ mediumKeywords).all
        (fun kw => !containsKw remarks kw) = true →
      (classify remarks).1 = Severity.Low)
    ∧ (classify "").1 = Severity.Low := by
  refine ⟨?_, ?_, by decide⟩
  · intro h
    have hex : ∃ kw ∈ criticalKeywords, containsKw remarks kw = true := by
      simpa using List.any_eq_true.mp h
    have : (criticalKeywords.find? (fun kw => containsKw remarks kw)).isSome := by
      rcases hex with ⟨kw, hmem, hkw⟩
      exact List.find?_isSome.mpr ⟨kw, hmem, hkw⟩
    unfold classify findKw
    rcases hf : criticalKeywords.find? (fun kw => containsKw remarks kw) with _ | kw
    · rw [hf] at this; simp at this
    · simp
  · intro h
    have hall := List.all_eq_true.mp h
    have hc : criticalKeywords.find? (fun kw => containsKw remarks kw) = none := by
      apply List.find?_eq_none.mpr
      intro kw hkw
      have := hall kw (by simp [hkw])
      simpa using this
    have hh : highKeywords.find? (fun kw => containsKw remarks kw) = none := by
      apply List.find?_eq_none.mpr
      intro kw hkw
      have := hall kw (by simp [hkw])
      simpa using this
    have hm : mediumKeywords.find? (fun kw => containsKw remarks kw) = none := by
      apply List.find?_eq_none.mpr
      intro kw hkw
      have := hall kw (by simp [hkw])
      simpa using this
    unfold classify findKw
    rw [hc, hh, hm]

/-- Witness for C1 at a remark containing both a Critical and a Medium
keyword: the classifier returns Critical. -/
theorem classify_strict_priority_witness :
    criticalKeywords.any
      (fun kw => containsKw "Keyboard trap prevents closing; inconsistent layout" kw) = true
    ∧ (classify "Keyboard trap prevents closing; inconsistent layout").1
        = Severity.Critical :=
  ⟨by decide,
   (classify_strict_priority "Keyboard trap prevents closing; inconsistent layout").1
     (by decide)⟩

/-- A normalized criterion row produced by the parser layer. -/
structure RawCriterionRecord where
  criterion_id : String
  conformance_level : ConformanceLevel
  remarks : String
deriving DecidableEq

/-- A successful backend verdict: `{severity, confidence, rationale}`. -/
structure AiVerdict where
  severity : Severity
  confidence : AiConfidence
  rationale : Option String
deriving DecidableEq

/-- The final per-criterion output of the engine. -/
structure Finding where
  criterion : String
  level : ConformanceLevel
  remarks : String
  severity : Severity
  original_severity : Option Severity
  ai_corrected : Bool
  confidence : Option Confidence
  provider_used : String
  correction_reason : String
deriving DecidableEq

/-- Modelled from the spec: the correction-merge step
`merge(record, heuristic_result, ai_result) -> Finding` (backend module not
in the snapshot).  `ai` is `some (provider_id, verdict)` when the backend
call succeeded and `none` when it failed, timed out, or never ran.  The
final severity is the AI severity on success, otherwise the heuristic one;
`ai_corrected` is true iff the AI call succeeded and its severity differs
from the heuristic severity, in which case `original_severity` records the
heuristic severity and `correction_reason` carries the backend rationale;
on fallback, `confidence = fallback` and `provider_used = "none"`. -/
def merge (record : RawCriterionRecord) (heur : Severity × Option String)
    (ai : Option (String × AiVerdict)) : Finding :=
  match ai with
  | some (pid, v) =>
    if v.severity = heur.1 then
      { criterion := record.criterion_id
        level := record.conformance_level
        remarks := record.remarks
        severity := v.severity
        original_severity := none
        ai_corrected := false
        confidence := some v.confidence.toConfidence
        provider_used := pid
        correction_reason :=
          v.rationale.getD "AI reassessed severity based on remark content" }
    else
      { criterion := record.criterion_id
        level := record.conformance_level
        remarks := record.remarks
        severity := v.severity
        original_severity := some heur.1
        ai_corrected := true
        confidence := some v.confidence.toConfidence
        provider_used := pid
        correction_reason :=
          v.rationale.getD "AI reassessed severity based on remark content" }
  | none =>
    { criterion := record.criterion_id
      level := record.conformance_level
      remarks := record.remarks
      severity := heur.1
      original_severity := none
      ai_corrected := false
      confidence := some Confidence.fallback
      provider_used := "none"
      correction_reason := "provider unavailable, used keyword analysis" }

/-- C2: every finding produced by the correction-merge step with
`ai_corrected = true` has a non-null `original_severity` that differs from
its final `severity`. -/
theorem merge_corrected_invariant (record : RawCriterionRecord)
    (heur : Severity × Option String) (ai : Option (String × AiVerdict))
    (h : (merge record heur ai).ai_corrected = true) :
    ∃ s, (merge record heur ai).original_severity = some s
      ∧ s ≠ (merge record heur ai).severity := by
  rcases ai with _ | ⟨pid, v⟩
  · simp [merge] at h
  · by_cases hs : v.severity = heur.1
    · simp [merge, hs] at h
    · exact ⟨heur.1, by simp [merge, hs], by simp [merge, hs]; exact fun he => hs he.symm⟩

/-- Witness for C2: a backend verdict of High over a heuristic Low yields a
corrected finding whose original severity is Low and differs from High. -/
theorem merge_corrected_invariant_witness :
    (merge ⟨"1.4.3", ConformanceLevel.PartiallySupports, "minor spacing"⟩
      (Severity.Low, none)
      (some ("gemini", ⟨Severity.High, AiConfidence.high, some "user impact is severe"⟩))).ai_corrected = true
    ∧ ∃ s, (merge ⟨"1.4.3", ConformanceLevel.PartiallySupports, "minor spacing"⟩
        (Severity.Low, none)
        (some ("gemini", ⟨Severity.High, AiConfidence.high, some "user impact is severe"⟩))).original_severity = some s
      ∧ s ≠ (merge ⟨"1.4.3", ConformanceLevel.PartiallySupports, "minor spacing"⟩
        (Severity.Low, none)
        (some ("gemini", ⟨Severity.High, AiConfidence.high, some "user impact is severe"⟩))).severity :=
  ⟨by decide,
   merge_corrected_invariant
     ⟨"1.4.3", ConformanceLevel.PartiallySupports, "minor spacing"⟩
     (Severity.Low, none)
     (some ("gemini", ⟨Severity.High, AiConfidence.high, some "user impact is severe"⟩))
     (by decide)⟩

/-- C7 counterexample: a finding produced by the heuristic-only path has
non-null `confidence` (namely `fallback`) although `ai_corrected` is false
and no backend evaluated it, so "confidence is non-null iff ai_corrected or
a backend returned a low-confidence non-correcting verdict" is false. -/
theorem merge_confidence_iff_counterexample :
    ¬(((merge ⟨"2.1.1", ConformanceLevel.DoesNotSupport, "minor spacing"⟩
          (classify "minor spacing") none).confidence ≠ none)
      ↔ ((merge ⟨"2.1.1", ConformanceLevel.DoesNotSupport, "minor spacing"⟩
          (classify "minor spacing") none).ai_corrected = true ∨ False)) := by
  decide

/-- C7 amended: `confidence` is always non-null on a merged finding, and it
equals `fallback` exactly when the AI call did not run or failed (the
heuristic-only path). -/
theorem merge_confidence_policy (record : RawCriterionRecord)
    (heur : Severity × Option String) (ai : Option (String × AiVerdict)) :
    (merge record heur ai).confidence ≠ none
    ∧ ((merge record heur ai).confidence = some Confidence.fallback ↔ ai = none) := by
  rcases ai with _ | ⟨pid, v⟩
  · exact ⟨by simp [merge], by simp [merge]⟩
  · constructor
    · by_cases hs : v.severity = heur.1 <;> simp [merge, hs]
    · constructor
      · intro h
        exfalso
        rcases v with ⟨vs, vc, vr⟩
        by_cases hs : vs = heur.1 <;>
          · simp [merge, hs] at h
            cases vc <;> simp [AiConfidence.toConfidence] at h
      · intro h
        simp at h

/-- Witness for C7 amended: the heuristic-only path yields
`confidence = fallback`. -/
theorem merge_confidence_policy_witness :
    (merge ⟨"2.1.1", ConformanceLevel.DoesNotSupport, "minor spacing"⟩
      (classify "minor spacing") none).confidence = some Confidence.fallback :=
  (merge_confidence_policy
    ⟨"2.1.1", ConformanceLevel.DoesNotSupport, "minor spacing"⟩
    (classify "minor spacing") none).2.mpr rfl

/-- Modelled from the spec: per-finding evaluation by the orchestrator
(backend module not in the snapshot) — the selected backend outcome for one
record is merged with the heuristic result; `none` stands for a
`ProviderError` or timeout (or no backend configured). -/
def evalOne (r : RawCriterionRecord) (outcome : Option (String × AiVerdict)) :
    Finding :=
  merge r (classify r.remarks) outcome

/-- Modelled from the spec: the orchestrator evaluates each eligible record
independently against its own backend outcome; each result is merged back
into its own slot by index. -/
def analyzeFindings (records : List RawCriterionRecord)
    (outcomes : List (Option (String × AiVerdict))) : List Finding :=
  List.zipWith evalOne records outcomes

/-- Modelled from the spec: an analysis request whose parsing succeeded
returns HTTP 200 with the findings; backend failures are absorbed and never
change the status. -/
def analyzeRequest (records : List RawCriterionRecord)
    (outcomes : List (Option (String × AiVerdict))) : Nat × List Finding :=
  (200, analyzeFindings records outcomes)

theorem zipWith_get?_set_ne {α β γ : Type} (f : α → β → γ) :
    ∀ (l1 : List α) (l2 : List β) (i j : Nat) (x : β), j ≠ i →
      (List.zipWith f l1 (l2.set i x)).get? j = (List.zipWith f l1 l2).get? j := by
  intro l1
  induction l1 with
  | nil => intro l2 i j x _; simp
  | cons a t ih =>
    intro l2 i j x h
    cases l2 with
    | nil => simp
    | cons b t2 =>
      cases i with
      | zero =>
        cases j with
        | zero => exact absurd rfl h
        | succ j2 => simp [List.set]
      | succ i2 =>
        cases j with
        | zero => simp [List.set]
        | succ j2 =>
          simp only [List.set, List.zipWith_cons_cons, List.get?_cons_succ]
          exact ih t2 i2 j2 x (fun he => h (by rw [he]))

theorem zipWith_get?_set_eq {α β γ : Type} (f : α → β → γ) :
    ∀ (l1 : List α) (l2 : List β) (i : Nat) (x : β),
      i < l1.length → i < l2.length →
      (List.zipWith f l1 (l2.set i x)).get? i = (l1.get? i).map (fun a => f a x) := by
  intro l1
  induction l1 with
  | nil => intro l2 i x h _; simp at h
  | cons a t ih =>
    intro l2 i x h1 h2
    cases l2 with
    | nil => simp at h2
    | cons b t2 =>
      cases i with
      | zero => simp [List.set]
      | succ i2 =>
        simp only [List.set, List.zipWith_cons_cons, List.get?_cons_succ]
        exact ih t2 i2 x (by simpa using h1) (by simpa using h2)

/-- C3: if the backend call for finding `i` fails, that finding gets the
heuristic severity with `confidence = fallback` and `provider_used = "none"`,
every other finding of the same request is unchanged, and the request still
succeeds with its normal HTTP status. -/
theorem backend_failure_isolated (records : List RawCriterionRecord)
    (outcomes : List (Option (String × AiVerdict))) (i : Nat)
    (hi : i < records.length) (hio : i < outcomes.length) :
    (analyzeRequest records (outcomes.set i none)).1
        = (analyzeRequest records outcomes).1
    ∧ (∀ j, j ≠ i →
        (analyzeFindings records (outcomes.set i none)).get? j
          = (analyzeFindings records outcomes).get? j)
    ∧ ∃ r, records.get? i = some r
        ∧ (analyzeFindings records (outcomes.set i none)).get? i
            = some (evalOne r none)
        ∧ (evalOne r none).confidence = some Confidence.fallback
        ∧ (evalOne r none).provider_used = "none"
        ∧ (evalOne r none).severity = (classify r.remarks).1 := by
  refine ⟨rfl, ?_, ?_⟩
  · intro j hj
    exact zipWith_get?_set_ne evalOne records outcomes i j none hj
  · have hr : records.get? i = some (records.get ⟨i, hi⟩) := List.get?_eq_get hi
    refine ⟨records.get ⟨i, hi⟩, hr, ?_, by simp [evalOne, merge],
      by simp [evalOne, merge], by simp [evalOne, merge]⟩
    show (List.zipWith evalOne records (outcomes.set i none)).get? i
        = some (evalOne (records.get ⟨i, hi⟩) none)
    rw [zipWith_get?_set_eq evalOne records outcomes i none hi hio, hr]
    rfl

/-- Witness for C3 on a two-finding request with a failure injected at
index 0: the finding at index 1 is unchanged. -/
theorem backend_failure_isolated_witness :
    (analyzeFindings
        [⟨"1.1.1", ConformanceLevel.DoesNotSupport, "keyboard trap in dialog"⟩,
         ⟨"1.4.3", ConformanceLevel.PartiallySupports, "poor contrast on buttons"⟩]
        ([some ("gemini", ⟨Severity.High, AiConfidence.high, none⟩),
          some ("gemini", ⟨Severity.Medium, AiConfidence.low, none⟩)].set 0 none)).get? 1
      = (analyzeFindings
        [⟨"1.1.1", ConformanceLevel.DoesNotSupport, "keyboard trap in dialog"⟩,
         ⟨"1.4.3", ConformanceLevel.PartiallySupports, "poor contrast on buttons"⟩]
        [some ("gemini", ⟨Severity.High, AiConfidence.high, none⟩),
         some ("gemini", ⟨Severity.Medium, AiConfidence.low, none⟩)]).get? 1 :=
  (backend_failure_isolated
    [⟨"1.1.1", ConformanceLevel.DoesNotSupport, "keyboard trap in dialog"⟩,
     ⟨"1.4.3", ConformanceLevel.PartiallySupports, "poor contrast on buttons"⟩]
    [some ("gemini", ⟨Severity.High, AiConfidence.high, none⟩),
     some ("gemini", ⟨Severity.Medium, AiConfidence.low, none⟩)]
    0 (by decide) (by decide)).2.1 1 (by decide)

/-- The four-way conformance tally of an `AnalysisResult`. -/
structure Summary where
  supports : Nat
  partially_supports : Nat
  does_not_support : Nat
  not_applicable : Nat
deriving DecidableEq

/-- Number of record-set rows at a given conformance level. -/
def countLevel (rows : List RawCriterionRecord) (lvl : ConformanceLevel) : Nat :=
  rows.countP (fun r => decide (r.conformance_level = lvl))

/-- Modelled from the spec: the aggregator computes the four-way conformance
tally directly from the record-set rows (backend module not in the
snapshot). -/
def computeSummary (rows : List RawCriterionRecord) : Summary :=
  { supports := countLevel rows ConformanceLevel.Supports
    partially_supports := countLevel rows ConformanceLevel.PartiallySupports
    does_not_support := countLevel rows ConformanceLevel.DoesNotSupport
    not_applicable := countLevel rows ConformanceLevel.NotApplicable }

/-- C4: each summary count equals the number of rows with that conformance
level, and the four counts sum to the total number of rows. -/
theorem summary_counts_partition (rows : List RawCriterionRecord) :
    ((computeSummary rows).supports = countLevel rows ConformanceLevel.Supports
    ∧ (computeSummary rows).partially_supports
        = countLevel rows ConformanceLevel.PartiallySupports
    ∧ (computeSummary rows).does_not_support
        = countLevel rows ConformanceLevel.DoesNotSupport
    ∧ (computeSummary rows).not_applicable
        = countLevel rows ConformanceLevel.NotApplicable)
    ∧ (computeSummary rows).supports + (computeSummary rows).partially_supports
        + (computeSummary rows).does_not_support
        + (computeSummary rows).not_applicable
      = rows.length := by
  refine ⟨⟨rfl, rfl, rfl, rfl⟩, ?_⟩
  induction rows with
  | nil => rfl
  | cons r t ih =>
    rcases r with ⟨cid, lvl, rem⟩
    cases lvl <;>
      · simp only [computeSummary, countLevel, List.countP_cons, List.length_cons] at ih ⊢
        simp
        omega

/-- The `ai_analysis_summary` object of the result payload. -/
structure AiAnalysisSummary where
  providers_used : List String
  providers_configured : List String
  preferred_provider : Option String
deriving DecidableEq

/-- The `analysis_results` object of the result payload. -/
structure AnalysisResults where
  vpat_version : Option String
  product_version : Option String
  report_age : Option String
  summary : Summary
  detailed_findings : List Finding
  ai_analysis_summary : AiAnalysisSummary
deriving DecidableEq

/-- The top-level `AnalysisResult` payload returned by `POST /api/analyze`. -/
structure AnalysisResult where
  filename : String
  analysis_results : AnalysisResults
deriving DecidableEq

/-- JavaScript `x || d` on a nullable string: the default replaces both a
missing value and the empty string. -/
def jsOr (o : Option String) (d : String) : String :=
  match o with
  | none => d
  | some s => if s == "" then d else s

/-- `showDetails` of `FindingRow` in `ReportDisplay.jsx`:
`item.ai_corrected || item.correction_reason || item.provider_used !== 'none'`. -/
def findingShowDetails (item : Finding) : Bool :=
  item.ai_corrected || item.correction_reason != "" || item.provider_used != "none"

/-- Content of the expanded details row of a finding
(`ReportDisplay.jsx`, expanded `FindingRow` branch). -/
structure ExpandedDetails where
  correctedFlag : Bool
  headerProviderBadge : Option String
  reasonText : String
  severityChange : Option (Option Severity × Severity × Option Confidence)
  providerInfo : Option String
deriving DecidableEq

/-- One rendered row of the findings table
(`FindingRow` in `ReportDisplay.jsx`). -/
structure RenderedRow where
  originalBadge : Option Severity
  severityBadge : Severity
  providerBadge : Option (String × Bool)
  correctionBadge : Option (Option Confidence)
  criterionCell : String
  levelCell : ConformanceLevel
  remarksCell : String
  detailsButton : Option Bool
  expandedDetails : Option ExpandedDetails
deriving DecidableEq

/-- Embedding of `FindingRow` from `ReportDisplay.jsx`: the display data a
finding row contributes, as a function of the finding, its index, and its
expansion state. -/
def renderFindingRow (item : Finding) (_index : Nat) (isExpanded : Bool) :
    RenderedRow :=
  let showDetails := findingShowDetails item
  { originalBadge :=
      if item.ai_corrected && item.original_severity.isSome then
        item.original_severity
      else none
    severityBadge := item.severity
    providerBadge :=
      if !item.ai_corrected && item.provider_used == "none" then none
      else some (item.provider_used, item.ai_corrected)
    correctionBadge := if item.ai_corrected then some item.confidence else none
    criterionCell := item.criterion
    levelCell := item.level
    remarksCell := item.remarks
    detailsButton := if showDetails then some isExpanded else none
    expandedDetails :=
      if isExpanded && showDetails then
        some { correctedFlag := item.ai_corrected
               headerProviderBadge :=
                 if item.provider_used != "" && item.provider_used != "none" then
                   some item.provider_used
                 else none
               reasonText := item.correction_reason
               severityChange :=
                 if item.ai_corrected then
                   some (item.original_severity, item.severity, item.confidence)
                 else none
               providerInfo :=
                 if item.provider_used != "" && item.provider_used != "none" then
                   some item.provider_used
                 else none }
      else none }

/-- Embedding of `findings.map((item, index) => <FindingRow .../>)` in
`ReportDisplay.jsx`: rows are produced by mapping over the findings with
their indices, expansion read per index. -/
def renderRows (findings : List Finding) (expd : Nat → Bool) :
    List RenderedRow :=
  findings.enum.map (fun p => renderFindingRow p.2 p.1 (expd p.1))

/-- The rendered report of `ReportDisplay.jsx`, as the display data computed
from the payload. -/
structure RenderedReport where
  headerTitle : String
  aiSummaryBox : Option (List String × Nat × Nat)
  keywordWarning : Bool
  availableLine : Option (List String)
  filenameLine : String
  vpatVersionCell : String
  productVersionCell : String
  reportAgeCell : String
  summarySupports : Nat
  summaryPartially : Nat
  summaryDoesNot : Nat
  summaryNotApplicable : Nat
  findingsTable : Option (List RenderedRow)
deriving DecidableEq

/-- Embedding of the `ReportDisplay` component body from
`ReportDisplay.jsx`: every payload read the component performs, mapped to
the display data it produces. -/
def renderReport (reportName : String) (result : AnalysisResult)
    (expd : Nat → Bool) : RenderedReport :=
  let analysis := result.analysis_results
  let summary := analysis.summary
  let findings := analysis.detailed_findings
  let aiSummary := analysis.ai_analysis_summary
  let correctionCount := (findings.filter (fun f => f.ai_corrected)).length
  let totalAnalyzed := findings.length
  let providersUsed := aiSummary.providers_used
  let providersConfigured := aiSummary.providers_configured
  { headerTitle := reportName
    aiSummaryBox :=
      if providersUsed.length > 0 then
        some (providersUsed, correctionCount, totalAnalyzed)
      else none
    keywordWarning := !(providersUsed.length > 0 : Bool)
    availableLine :=
      if providersConfigured.length > providersUsed.length then
        some providersConfigured
      else none
    filenameLine := result.filename
    vpatVersionCell := jsOr analysis.vpat_version "N/A"
    productVersionCell := jsOr analysis.product_version "N/A"
    reportAgeCell := jsOr analysis.report_age "N/A"
    summarySupports := summary.supports
    summaryPartially := summary.partially_supports
    summaryDoesNot := summary.does_not_support
    summaryNotApplicable := summary.not_applicable
    findingsTable :=
      if findings.length > 0 then some (renderRows findings expd) else none }

/-- C5 counterexample: two payloads agreeing on every field of the
section-6 contract list (`filename`, `summary`, `detailed_findings`,
`providers_used`, `providers_configured`) but differing in
`analysis_results.vpat_version` — a field outside the list — render
differently, so the rendered report is influenced by a field outside the
contract list. -/
theorem render_contract_counterexample :
    let s : Summary := ⟨10, 2, 1, 3⟩
    let ai : AiAnalysisSummary := ⟨["gemini"], ["gemini"], some "gemini"⟩
    let p : AnalysisResult :=
      ⟨"report.pdf", ⟨some "2.4", some "1.0", some "3 months old", s, [], ai⟩⟩
    let q : AnalysisResult :=
      ⟨"report.pdf", ⟨none, some "1.0", some "3 months old", s, [], ai⟩⟩
    p.filename = q.filename
    ∧ p.analysis_results.summary = q.analysis_results.summary
    ∧ p.analysis_results.detailed_findings = q.analysis_results.detailed_findings
    ∧ p.analysis_results.ai_analysis_summary.providers_used
        = q.analysis_results.ai_analysis_summary.providers_used
    ∧ p.analysis_results.ai_analysis_summary.providers_configured
        = q.analysis_results.ai_analysis_summary.providers_configured
    ∧ renderReport "R" p (fun _ => false) ≠ renderReport "R" q (fun _ => false) := by
  refine ⟨rfl, rfl, rfl, rfl, rfl, ?_⟩
  intro h
  have := congrArg RenderedReport.vpatVersionCell h
  simp [renderReport, jsOr] at this

/-- C5 amended: the rendered report depends only on the contract-listed
fields together with `analysis_results.{vpat_version, product_version,
report_age}` — two payloads agreeing on those render identically, so in
particular `preferred_provider` (the remaining payload field) never
influences the rendered report. -/
theorem render_consumes_contract_fields (reportName : String)
    (p q : AnalysisResult) (expd : Nat → Bool)
    (h1 : p.filename = q.filename)
    (h2 : p.analysis_results.summary = q.analysis_results.summary)
    (h3 : p.analysis_results.detailed_findings
        = q.analysis_results.detailed_findings)
    (h4 : p.analysis_results.ai_analysis_summary.providers_used
        = q.analysis_results.ai_analysis_summary.providers_used)
    (h5 : p.analysis_results.ai_analysis_summary.providers_configured
        = q.analysis_results.ai_analysis_summary.providers_configured)
    (h6 : p.analysis_results.vpat_version = q.analysis_results.vpat_version)
    (h7 : p.analysis_results.product_version
        = q.analysis_results.product_version)
    (h8 : p.analysis_results.report_age = q.analysis_results.report_age) :
    renderReport reportName p expd = renderReport reportName q expd := by
  simp only [renderReport, h1, h2, h3, h4, h5, h6, h7, h8]

/-- Witness for C5 amended: two payloads differing only in
`preferred_provider` render identically. -/
theorem render_consumes_contract_fields_witness :
    renderReport "R"
      ⟨"report.pdf",
       ⟨some "2.4", none, none, ⟨10, 2, 1, 3⟩, [],
        ⟨["gemini"], ["gemini", "claude"], some "gemini"⟩⟩⟩
      (fun _ => false)
      = renderReport "R"
      ⟨"report.pdf",
       ⟨some "2.4", none, none, ⟨10, 2, 1, 3⟩, [],
        ⟨["gemini"], ["gemini", "claude"], none⟩⟩⟩
      (fun _ => false) :=
  render_consumes_contract_fields "R"
    ⟨"report.pdf",
     ⟨some "2.4", none, none, ⟨10, 2, 1, 3⟩, [],
      ⟨["gemini"], ["gemini", "claude"], some "gemini"⟩⟩⟩
    ⟨"report.pdf",
     ⟨some "2.4", none, none, ⟨10, 2, 1, 3⟩, [],
      ⟨["gemini"], ["gemini", "claude"], none⟩⟩⟩
    (fun _ => false) rfl rfl rfl rfl rfl rfl rfl rfl

/-- C6: the findings table renders `detailed_findings` in exactly the
payload order — the table has one row per finding and the row at display
position `i` is built from `detailed_findings[i]` with its own expansion
state; no reordering occurs. -/
theorem findings_rendered_in_order (findings : List Finding)
    (expd : Nat → Bool) :
    (renderRows findings expd).length = findings.length
    ∧ ∀ i, (renderRows findings expd).get? i
        = (findings.get? i).map (fun item => renderFindingRow item i (expd i)) := by
  constructor
  · simp [renderRows]
  · intro i
    simp only [renderRows, List.getElem?_map, List.getElem?_enum, List.get?_eq_getElem?]
    cases findings[i]? <;> rfl

/-- The slice of `App` component state touched by `handleFileUpload` in
`App.jsx`. -/
structure AppState where
  analysisResult : Option AnalysisResult
  error : String
  isLoading : Bool
deriving DecidableEq

/-- Outcome of the `POST /api/analyze` call: a 2xx response carrying the
payload, or a failure carrying the optional `detail` field of the response
body (`err.response?.data?.detail`). -/
inductive ApiResponse where
  | ok (data : AnalysisResult)
  | err (detail : Option String)
deriving DecidableEq

/-- The state writes `handleFileUpload` performs before issuing the request
(`App.jsx`): `setIsLoading(true); setError(''); setAnalysisResult(null)`. -/
def preRequestState (s : AppState) : AppState :=
  { s with isLoading := true, error := "", analysisResult := none }

/-- Embedding of `handleFileUpload` from `App.jsx` as a state transition on
the request outcome: clear state, then either store the payload or store
the error message, and stop loading.  The error message is the JavaScript
`err.response?.data?.detail || 'An unexpected error occurred.'`, where `||`
substitutes the generic message when `detail` is absent or the empty
string. -/
def handleFileUpload (s : AppState) (resp : ApiResponse) : AppState :=
  let s1 := preRequestState s
  match resp with
  | .ok d => { s1 with analysisResult := some d, isLoading := false }
  | .err detail =>
    { s1 with error := jsOr detail "An unexpected error occurred."
              isLoading := false }

/-- C8 counterexample: at a failure response whose `detail` field is present
but empty, the code displays the fixed generic message instead of the
(empty) detail field, so "displays the response body's detail field as the
error message, substituting the generic message when detail is absent" is
false at that input. -/
theorem upload_error_empty_detail_counterexample :
    (some "" : Option String).isSome = true
    ∧ (handleFileUpload ⟨none, "", false⟩ (ApiResponse.err (some ""))).error
        = "An unexpected error occurred."
    ∧ (handleFileUpload ⟨none, "", false⟩ (ApiResponse.err (some ""))).error
        ≠ "" := by
  refine ⟨rfl, rfl, by decide⟩

/-- C8 amended: the client clears the previously displayed analysis result
before the request; on a failed request the displayed result stays cleared
and the error message is `detail || generic` — the response body detail
when present and non-empty, the fixed generic message when detail is absent
or empty — so a failed request never leaves a stale result. -/
theorem upload_failure_clears_result (s : AppState) (detail : Option String) :
    (preRequestState s).analysisResult = none
    ∧ (handleFileUpload s (ApiResponse.err detail)).analysisResult = none
    ∧ (handleFileUpload s (ApiResponse.err detail)).error
        = jsOr detail "An unexpected error occurred."
    ∧ (∀ d, d ≠ "" → detail = some d →
        (handleFileUpload s (ApiResponse.err detail)).error = d) := by
  refine ⟨rfl, rfl, rfl, ?_⟩
  intro d hd hdet
  subst hdet
  show jsOr (some d) "An unexpected error occurred." = d
  simp [jsOr, hd]

/-- Witness for C8 amended: a failure with a non-empty detail clears a
previously displayed result and shows the detail as the error message. -/
theorem upload_failure_clears_result_witness :
    (handleFileUpload
        ⟨some ⟨"old.pdf", ⟨none, none, none, ⟨0, 0, 0, 0⟩, [], ⟨[], [], none⟩⟩⟩,
         "", false⟩
        (ApiResponse.err (some "Unsupported file format."))).analysisResult = none
    ∧ (handleFileUpload
        ⟨some ⟨"old.pdf", ⟨none, none, none, ⟨0, 0, 0, 0⟩, [], ⟨[], [], none⟩⟩⟩,
         "", false⟩
        (ApiResponse.err (some "Unsupported file format."))).error
        = "Unsupported file format." :=
  ⟨(upload_failure_clears_result
      ⟨some ⟨"old.pdf", ⟨none, none, none, ⟨0, 0, 0, 0⟩, [], ⟨[], [], none⟩⟩⟩,
       "", false⟩
      (some "Unsupported file format.")).2.1,
   (upload_failure_clears_result
      ⟨some ⟨"old.pdf", ⟨none, none, none, ⟨0, 0, 0, 0⟩, [], ⟨[], [], none⟩⟩⟩,
       "", false⟩
      (some "Unsupported file format.")).2.2.2
     "Unsupported file format." (by decide) rfl⟩

/-- Embedding of `handleToggleExpanded` from `ReportDisplay.jsx`: copy the
expanded-row set, delete the index if present, otherwise insert it. -/
def handleToggleExpanded (expandedRows : Finset ℕ) (index : ℕ) : Finset ℕ :=
  if index ∈ expandedRows then expandedRows.erase index
  else insert index expandedRows

/-- C9: toggling row `i` is an involution on the expanded-row set that
touches only `i`: toggling twice restores the set, and a single toggle
leaves the membership of every other index unchanged. -/
theorem toggle_involution_and_local (S : Finset ℕ) (i : ℕ) :
    handleToggleExpanded (handleToggleExpanded S i) i = S
    ∧ ∀ j, j ≠ i → (j ∈ handleToggleExpanded S i ↔ j ∈ S) := by
  constructor
  · by_cases h : i ∈ S
    · have h2 : i ∉ S.erase i := Finset.not_mem_erase i S
      simp only [handleToggleExpanded, h, if_true, h2, if_false]
      exact Finset.insert_erase h
    · have h2 : i ∈ insert i S := Finset.mem_insert_self i S
      simp only [handleToggleExpanded, h, if_false, h2, if_true]
      exact Finset.erase_insert h
  · intro j hj
    by_cases h : i ∈ S
    · simp [handleToggleExpanded, h, Finset.mem_erase, hj]
    · simp [handleToggleExpanded, h, Finset.mem_insert, hj]

/-- Witness for C9: toggling index 1 on the set `{2}` leaves membership of
index 2 unchanged. -/
theorem toggle_involution_and_local_witness :
    (2 : ℕ) ≠ 1
    ∧ ((2 : ℕ) ∈ handleToggleExpanded {2} 1 ↔ (2 : ℕ) ∈ ({2} : Finset ℕ)) :=
  ⟨by decide, (toggle_involution_and_local {2} 1).2 2 (by decide)⟩

/-- `isUploadDisabled` from `App.jsx`: `!reportName || !reviewerName` — a
JavaScript string is falsy exactly when it is empty. -/
def isUploadDisabled (reportName reviewerName : String) : Bool :=
  reportName == "" || reviewerName == ""

/-- The `disabled` flag `FileUpload` passes to the dropzone:
`isLoading || disabled`. -/
def fileUploadDisabled (isLoading disabled : Bool) : Bool :=
  isLoading || disabled

/-- Modelled from the spec of the dropzone collaborator (react-dropzone,
external to the repository): when the dropzone is disabled no drop event is
delivered, otherwise `onDrop` forwards the first accepted file to the
upload handler (`FileUpload`: `onFileUpload(acceptedFiles[0])` when the
list is non-empty). -/
def dropTriggersUpload (dropDisabled : Bool) (acceptedFiles : List String) :
    Option String :=
  if dropDisabled then none else acceptedFiles.head?

/-- C10: whenever the report name or reviewer name is empty, or a request
is in flight, the dropzone is disabled and a dropped file does not trigger
the upload handler. -/
theorem upload_blocked_when_invalid (reportName reviewerName : String)
    (isLoading : Bool) (files : List String)
    (h : reportName = "" ∨ reviewerName = "" ∨ isLoading = true) :
    fileUploadDisabled isLoading (isUploadDisabled reportName reviewerName) = true
    ∧ dropTriggersUpload
        (fileUploadDisabled isLoading (isUploadDisabled reportName reviewerName))
        files = none := by
  have hd : fileUploadDisabled isLoading
      (isUploadDisabled reportName reviewerName) = true := by
    rcases h with h | h | h <;>
      simp [fileUploadDisabled, isUploadDisabled, h]
  exact ⟨hd, by simp [dropTriggersUpload, hd]⟩

/-- Witness for C10: with an empty report name the drop of a file does not
trigger the upload handler. -/
theorem upload_blocked_when_invalid_witness :
    ("" : String) = ""
    ∧ dropTriggersUpload
        (fileUploadDisabled false (isUploadDisabled "" "Jane Doe"))
        ["report.pdf"] = none :=
  ⟨rfl,
   (upload_blocked_when_invalid "" "Jane Doe" false ["report.pdf"]
     (Or.inl rfl)).2⟩

end A11y
